import Mathlib

/-!
Shallow embedding of the `Globe` class of `src/js/globe.js`, an interactive
orthographic globe widget built on the external d3 library.

Modelling conventions:
* JS numbers are modelled as rationals (`ℚ`); JS `null` as `Option.none`.
* The external d3 geographic functions that the widget merely consumes
  (applying the projection to coordinates, `projection.invert`,
  `d3.geoDistance`) and the constant `Math.PI` are modelled as an abstract
  record `D3` of parameters: the repository's own code only wires their
  results into state fields and DOM attributes.
* The DOM attributes the handlers rewrite (`d` of every path, `cx`/`cy`/`fill`
  of every marker circle) are mirrored by the `Dom` and `MarkerDom` records.
* Timer lifecycle (which `d3.interval` / `d3.timeout` timers are live) is
  modelled by the `TimerSys` transition system, with fresh numeric ids for
  created timers, mirroring exactly which handles the code stops or
  overwrites.
-/

namespace GlobeJs

/-- A coordinate pair, either geographic `[lon, lat]` or screen `[x, y]`. -/
abbrev Coord := ℚ × ℚ

/-- A d3 rotation triple `[r0, r1, r2]` = `[yaw, pitch, roll]`, as returned by
`projection.rotate()`. -/
structure Rot where
  r0 : ℚ
  r1 : ℚ
  r2 : ℚ
deriving DecidableEq

/-- An entry of `this._locations` as pushed by `addPoint(coord, tag)`. -/
structure Location where
  coordinates : Coord
  tag : String
deriving DecidableEq

/-- The mutable configuration of the `d3.geoOrthographic()` projection:
rotation triple, scale and translate (the projection math itself is external). -/
structure Proj where
  rotate : Rot
  scale : ℚ
  translate : Coord
deriving DecidableEq

/-- Handle of a `d3.interval` timer, remembering the delay it was created
with (`d3.interval(cb, this._rotationDelay)`). -/
structure IntervalTimer where
  delay : Option ℚ
deriving DecidableEq

/-- Handle of a `d3.timeout` timer, remembering its timeout argument. -/
structure TimeoutTimer where
  timeout : ℚ
deriving DecidableEq

/-- The instance state of class `Globe` (fields set in the constructor of
`src/js/globe.js`). -/
structure Globe where
  size : ℚ
  projection : Proj
  rotationTimer : Option IntervalTimer
  rotationDelay : Option ℚ
  rotationSpeed : Option ℚ
  tprev : Option ℚ
  rotationResumeTimer : Option TimeoutTimer
  locations : List Location
deriving DecidableEq

/-- `constructor(svgElSelector, size)`: scale `size/2`, translate
`[size/2, size/2]`, all timer fields `null`, empty location list.  The d3
default rotation is `[0, 0, 0]`. -/
def Globe.init (size : ℚ) : Globe :=
  { size := size
    projection := { rotate := ⟨0, 0, 0⟩, scale := size / 2, translate := (size / 2, size / 2) }
    rotationTimer := none
    rotationDelay := none
    rotationSpeed := none
    tprev := none
    rotationResumeTimer := none
    locations := [] }

/-- The externally supplied d3 geographic functions consumed by the widget:
applying the projection to coordinates (screen position), `projection.invert`,
`d3.geoDistance`, and the constant `Math.PI` (an abstract parameter `pi`). -/
structure D3 where
  project : Proj → Coord → Coord
  invert : Proj → Coord → Coord
  geoDist : Coord → Coord → ℚ
  pi : ℚ

/-- `Globe._ROTATION_SENSITIVITY = 0.09`. -/
def ROTATION_SENSITIVITY : ℚ := 9 / 100

/-- `Globe._ROTATION_RESUME_TIMEOUT = 10000`. -/
def ROTATION_RESUME_TIMEOUT : ℚ := 10000

/-- The DOM attributes `_drawMarkers` writes on one marker circle: `cx`, `cy`,
and whether the fill is visible (`tomato`, `true`) or `none` (`false`). -/
structure MarkerDom where
  cx : ℚ
  cy : ℚ
  visible : Bool
deriving DecidableEq

/-- `_drawMarkers()`: recompute `cx`/`cy` of every marker from the current
projection, and set the fill to `none` exactly when the great-circle distance
from the marker's coordinates to `projection.invert([size/2, size/2])` exceeds
`Math.PI / 2`. -/
def drawMarkers (d3 : D3) (g : Globe) : List MarkerDom :=
  let center : Coord := (g.size / 2, g.size / 2)
  let centerXY := d3.invert g.projection center
  g.locations.map fun d =>
    { cx := (d3.project g.projection d.coordinates).1
      cy := (d3.project g.projection d.coordinates).2
      visible := if d3.geoDist d.coordinates centerXY > d3.pi / 2 then false else true }

/-- Mirror of the DOM parts the handlers rewrite: the projection every `path`
element's `d` attribute was last computed from, and the marker circles. -/
structure Dom where
  pathsProj : Proj
  markers : List MarkerDom
deriving DecidableEq

/-- `_recalculate()`: rewrite the `d` attribute of all paths from the current
projection and redraw all markers. -/
def recalculate (d3 : D3) (g : Globe) : Dom :=
  { pathsProj := g.projection, markers := drawMarkers d3 g }

/-- The `subject` callback of `enableDrag`: with `r = projection.rotate()`,
`s = projection.scale()` and `c = _ROTATION_SENSITIVITY / s * size`, return
`{x: r[0]/c, y: -r[1]/c}`. -/
def dragSubject (g : Globe) : Coord :=
  let r := g.projection.rotate
  let s := g.projection.scale
  let c := ROTATION_SENSITIVITY / s * g.size
  (r.r0 / c, -r.r1 / c)

/-- The `drag` handler of `enableDrag`: set the rotation to
`[event.x * c, -event.y * c, r[2]]` and call `_recalculate()`. -/
def dragHandler (d3 : D3) (g : Globe) (eventX eventY : ℚ) : Globe × Dom :=
  let r := g.projection.rotate
  let s := g.projection.scale
  let c := ROTATION_SENSITIVITY / s * g.size
  let g' := { g with projection :=
    { g.projection with rotate := ⟨eventX * c, -eventY * c, r.r2⟩ } }
  (g', recalculate d3 g')

/-- The `zoom` handler of `enableZoom`: set the projection scale to
`(size/2) * event.transform.k` and call `_recalculate()`. -/
def zoomHandler (d3 : D3) (g : Globe) (k : ℚ) : Globe × Dom :=
  let s := g.size / 2
  let news := s * k
  let g' := { g with projection := { g.projection with scale := news } }
  (g', recalculate d3 g')

/-- `registerRotation(delay, speed)`: store delay and speed, reset `_tprev` to
0, and create a new `d3.interval` with the stored delay (the previous handle,
if any, is overwritten without being stopped). -/
def registerRotation (g : Globe) (delay speed : Option ℚ) : Globe :=
  { g with rotationDelay := delay
           rotationSpeed := speed
           tprev := some 0
           rotationTimer := some ⟨delay⟩ }

/-- `_timerCallback(t)`: advance the yaw by `speed * (t - tprev)`, rotate,
`_recalculate()`, then set `tprev := t`.  (JS coerces a `null` `tprev` or
speed to 0 in arithmetic; both fields are non-null whenever a timer can
actually fire, since `registerRotation` sets them first.) -/
def timerCallback (d3 : D3) (g : Globe) (t : ℚ) : Globe × Dom :=
  let dt := t - g.tprev.getD 0
  let r := g.projection.rotate
  let r' : Rot := ⟨r.r0 + g.rotationSpeed.getD 0 * dt, r.r1, r.r2⟩
  let g' := { g with projection := { g.projection with rotate := r' } }
  let dom := recalculate d3 g'
  ({ g' with tprev := some t }, dom)

/-- The `start` handler of `enableDrag`: stop the rotation timer (if any) and
the resume timer (if any) and null both fields. -/
def dragStartHandler (g : Globe) : Globe :=
  let g1 := if g.rotationTimer.isSome then { g with rotationTimer := none } else g
  if g1.rotationResumeTimer.isSome then { g1 with rotationResumeTimer := none } else g1

/-- The `end` handler of `enableDrag`: install a `d3.timeout` of
`_ROTATION_RESUME_TIMEOUT` ms in `_rotationResumeTimer`. -/
def dragEndHandler (g : Globe) : Globe :=
  { g with rotationResumeTimer := some ⟨ROTATION_RESUME_TIMEOUT⟩ }

/-- The resume timeout's callback: `registerRotation(this._rotationDelay,
this._rotationSpeed)` and then null the resume-timer field. -/
def resumeFire (g : Globe) : Globe :=
  let g1 := registerRotation g g.rotationDelay g.rotationSpeed
  { g1 with rotationResumeTimer := none }

/-- `addPoint(coord, tag)`: push `{coordinates, tag}` onto `_locations`, bind
the marker selection, and `_drawMarkers()`. -/
def addPoint (d3 : D3) (g : Globe) (coord : Coord) (tag : String) : Globe × List MarkerDom :=
  let g' := { g with locations := g.locations ++ [{ coordinates := coord, tag := tag }] }
  (g', drawMarkers d3 g')

/-- Folding `_timerCallback` over a list of elapsed times. -/
def ticks (d3 : D3) (g : Globe) (ts : List ℚ) : Globe :=
  ts.foldl (fun s t => (timerCallback d3 s t).1) g

/-- Folding the `drag` handler over a list of drag events `(x, y)`. -/
def drags (d3 : D3) (g : Globe) (es : List Coord) : Globe :=
  es.foldl (fun s e => (dragHandler d3 s e.1 e.2).1) g

/-- Timer-lifecycle view of the widget.  Created timers get fresh numeric ids;
`liveIntervals` are the `d3.interval` timers created and not yet stopped,
`livePending` the `d3.timeout` timers created, not stopped and not yet fired.
`timerField` / `resumeField` mirror `this._rotationTimer` /
`this._rotationResumeTimer`; `dragging` is true between a drag's `start` and
`end` events. -/
structure TimerSys where
  nextId : Nat
  liveIntervals : List Nat
  livePending : List Nat
  timerField : Option Nat
  resumeField : Option Nat
  dragging : Bool
deriving DecidableEq

/-- The events that touch timer state: an external `registerRotation` call, a
drag `start`, a drag `end`, the resume timeout firing, and an interval tick
(the tick callback does not touch timer fields). -/
inductive Ev where
  | register
  | dragStart
  | dragEnd
  | resumeFire (j : Nat)
  | tick (i : Nat)
deriving DecidableEq

/-- `timer.stop()` on the handle held in a field: the referenced timer (if
any) stops being live. -/
def stopField (live : List Nat) : Option Nat → List Nat
  | none => live
  | some i => live.erase i

/-- One step of the timer system, mirroring the source handlers.
`registerRotation` creates a fresh interval and overwrites the field without
stopping the previous handle.  The drag `start` handler stops (and nulls) both
fields.  The drag `end` handler creates a fresh timeout.  A firing timeout
leaves the pending set, runs `registerRotation`, and nulls the resume field.
Drag events are guarded by the `dragging` flag (the DOM delivers `start` and
`end` strictly alternating) and a timeout can only fire while pending. -/
def stepT (s : TimerSys) : Ev → TimerSys
  | .register =>
      { s with liveIntervals := s.nextId :: s.liveIntervals
               timerField := some s.nextId
               nextId := s.nextId + 1 }
  | .dragStart =>
      if s.dragging then s
      else
        { s with liveIntervals := stopField s.liveIntervals s.timerField
                 timerField := none
                 livePending := stopField s.livePending s.resumeField
                 resumeField := none
                 dragging := true }
  | .dragEnd =>
      if s.dragging then
        { s with livePending := s.nextId :: s.livePending
                 resumeField := some s.nextId
                 nextId := s.nextId + 1
                 dragging := false }
      else s
  | .resumeFire j =>
      if j ∈ s.livePending then
        { s with livePending := s.livePending.erase j
                 liveIntervals := s.nextId :: s.liveIntervals
                 timerField := some s.nextId
                 nextId := s.nextId + 1
                 resumeField := none }
      else s
  | .tick _ => s

/-- The timer system at construction time: no timers, no drag. -/
def initT : TimerSys :=
  { nextId := 0, liveIntervals := [], livePending := [], timerField := none,
    resumeField := none, dragging := false }

/-- Run a trace of events. -/
def runT (s : TimerSys) (tr : List Ev) : TimerSys :=
  tr.foldl stepT s

/-- Number of live timers (intervals plus pending timeouts). -/
def countLive (s : TimerSys) : Nat :=
  s.liveIntervals.length + s.livePending.length

/-- Timer-state invariant: either no timer is live and both fields are null,
or not dragging and exactly the interval held in `timerField` is live, or not
dragging and exactly the timeout held in `resumeField` is pending. -/
def InvT (s : TimerSys) : Prop :=
  (s.liveIntervals = [] ∧ s.livePending = [] ∧ s.timerField = none ∧ s.resumeField = none)
  ∨ (s.dragging = false ∧ s.livePending = [] ∧ s.resumeField = none ∧
      ∃ i, s.liveIntervals = [i] ∧ s.timerField = some i)
  ∨ (s.dragging = false ∧ s.liveIntervals = [] ∧ s.timerField = none ∧
      ∃ j, s.livePending = [j] ∧ s.resumeField = some j)

/-- Traces along which every external `registerRotation` call happens when no
timer is live or pending and no drag is in progress (the widget's intended
usage: one setup call; resume-driven registrations are `resumeFire` events). -/
inductive GoodFrom : TimerSys → List Ev → Prop where
  | nil (s : TimerSys) : GoodFrom s []
  | consReg (s : TimerSys) (tr : List Ev) (h0 : countLive s = 0)
      (h1 : s.dragging = false) (h : GoodFrom (stepT s Ev.register) tr) :
      GoodFrom s (Ev.register :: tr)
  | consOther (s : TimerSys) (e : Ev) (tr : List Ev) (hne : e ≠ Ev.register)
      (h : GoodFrom (stepT s e) tr) : GoodFrom s (e :: tr)

lemma invT_step (s : TimerSys) (e : Ev) (hs : InvT s)
    (hreg : e = Ev.register → countLive s = 0 ∧ s.dragging = false) :
    InvT (stepT s e) := by
  cases e with
  | register =>
      obtain ⟨h0, hdrag⟩ := hreg rfl
      simp only [countLive, Nat.add_eq_zero, List.length_eq_zero] at h0
      obtain ⟨hli, hlp⟩ := h0
      have hrf : s.resumeField = none := by
        rcases hs with ⟨_, _, _, h4⟩ | ⟨_, _, _, i, hi, _⟩ | ⟨_, _, _, j, hj, _⟩
        · exact h4
        · rw [hi] at hli; exact absurd hli (by simp)
        · rw [hj] at hlp; exact absurd hlp (by simp)
      refine Or.inr (Or.inl ⟨hdrag, ?_, ?_, s.nextId, ?_, ?_⟩) <;>
        simp [stepT, hli, hlp, hrf]
  | dragStart =>
      by_cases hd : s.dragging
      · simpa only [stepT, if_pos hd] using hs
      · rcases hs with ⟨h1, h2, h3, h4⟩ | ⟨_, h2, h3, i, h1, hf⟩ | ⟨_, h1, h3, j, h2, hf⟩ <;>
          exact Or.inl (by simp [stepT, hd, stopField, h1, h2, h3, *])
  | dragEnd =>
      cases hd : s.dragging with
      | false =>
          have hstep : stepT s Ev.dragEnd = s := by simp [stepT, hd]
          rw [hstep]; exact hs
      | true =>
          rcases hs with ⟨h1, h2, h3, h4⟩ | ⟨hnd, _⟩ | ⟨hnd, _⟩
          · exact Or.inr (Or.inr (by simp [stepT, hd, h1, h2, h3]))
          · rw [hnd] at hd; exact absurd hd (by simp)
          · rw [hnd] at hd; exact absurd hd (by simp)
  | resumeFire j =>
      by_cases hj : j ∈ s.livePending
      · rcases hs with ⟨h1, h2, h3, h4⟩ | ⟨hnd, h2, h3, i, h1, hf⟩ | ⟨hnd, h1, h3, j', h2, hf⟩
        · rw [h2] at hj; exact absurd hj (by simp)
        · rw [h2] at hj; exact absurd hj (by simp)
        · have hjj : j = j' := by rw [h2] at hj; simpa using hj
          subst hjj
          exact Or.inr (Or.inl (by simp [stepT, hj, hnd, h1, h2]))
      · simpa only [stepT, if_neg hj] using hs
  | tick i => exact hs

lemma invT_run (s : TimerSys) (tr : List Ev) (hs : InvT s) (h : GoodFrom s tr) :
    InvT (runT s tr) := by
  induction h with
  | nil => exact hs
  | consReg s tr h0 h1 _ ih => exact ih (invT_step s Ev.register hs (fun _ => ⟨h0, h1⟩))
  | consOther s e tr hne _ ih => exact ih (invT_step s e hs (fun he => absurd he hne))

lemma invT_countLive (s : TimerSys) (hs : InvT s) : countLive s ≤ 1 := by
  rcases hs with ⟨h1, h2, _, _⟩ | ⟨_, h2, _, i, h1, _⟩ | ⟨_, h1, _, j, h2, _⟩ <;>
    simp [countLive, h1, h2]

lemma invT_initT : InvT initT :=
  Or.inl ⟨rfl, rfl, rfl, rfl⟩

lemma goodFrom_of_noReg (s : TimerSys) (tr : List Ev)
    (h : ∀ e ∈ tr, e ≠ Ev.register) : GoodFrom s tr := by
  induction tr generalizing s with
  | nil => exact GoodFrom.nil s
  | cons e tr ih =>
      exact GoodFrom.consOther s e tr (h e (by simp))
        (ih _ (fun x hx => h x (by simp [hx])))

lemma invT_dragging_no_timers (s : TimerSys) (hs : InvT s) (hd : s.dragging = true) :
    s.liveIntervals = [] ∧ s.livePending = [] := by
  rcases hs with ⟨h1, h2, _, _⟩ | ⟨hnd, _⟩ | ⟨hnd, _⟩
  · exact ⟨h1, h2⟩
  · rw [hnd] at hd; exact absurd hd (by simp)
  · rw [hnd] at hd; exact absurd hd (by simp)

lemma invT_dragStart_clears (s : TimerSys) (hs : InvT s) :
    (stepT s Ev.dragStart).liveIntervals = [] ∧
    (stepT s Ev.dragStart).livePending = [] ∧
    (stepT s Ev.dragStart).timerField = none ∧
    (stepT s Ev.dragStart).resumeField = none := by
  by_cases hd : s.dragging
  · have hstep : stepT s Ev.dragStart = s := by simp [stepT, hd]
    rcases hs with ⟨h1, h2, h3, h4⟩ | ⟨hnd, _⟩ | ⟨hnd, _⟩
    · rw [hstep]; exact ⟨h1, h2, h3, h4⟩
    · rw [hnd] at hd; exact absurd hd (by simp)
    · rw [hnd] at hd; exact absurd hd (by simp)
  · rcases hs with ⟨h1, h2, h3, h4⟩ | ⟨_, h2, h3, i, h1, hf⟩ | ⟨_, h1, h3, j, h2, hf⟩ <;>
      simp [stepT, hd, stopField, h1, h2, h3, *]

lemma invT_classify (s : TimerSys) (hs : InvT s) :
    (s.dragging = true ∧ s.liveIntervals = [] ∧ s.livePending = [])
    ∨ (s.dragging = false ∧ s.livePending = [] ∧
        ∃ i, s.liveIntervals = [i] ∧ s.timerField = some i)
    ∨ (s.dragging = false ∧ s.liveIntervals = [] ∧
        (s.livePending = [] ∨ ∃ j, s.livePending = [j] ∧ s.resumeField = some j)) := by
  rcases hs with ⟨h1, h2, h3, h4⟩ | ⟨hnd, h2, h3, i, h1, hf⟩ | ⟨hnd, h1, h3, j, h2, hf⟩
  · cases hd : s.dragging with
    | true => exact Or.inl ⟨rfl, h1, h2⟩
    | false => exact Or.inr (Or.inr ⟨rfl, h1, Or.inl h2⟩)
  · exact Or.inr (Or.inl ⟨hnd, h2, i, h1, hf⟩)
  · exact Or.inr (Or.inr ⟨hnd, h1, Or.inr ⟨j, h2, hf⟩⟩)

lemma ticks_r0 (d3 : D3) (ts : List ℚ) :
    ∀ (g : Globe) (tp sp tn : ℚ), g.tprev = some tp → g.rotationSpeed = some sp →
      ts.getLast? = some tn →
      (ticks d3 g ts).projection.rotate.r0 = g.projection.rotate.r0 + sp * (tn - tp) := by
  induction ts with
  | nil => intro g tp sp tn _ _ hlast; simp at hlast
  | cons t ts ih =>
      intro g tp sp tn h1 h2 hlast
      have hstep : ticks d3 g (t :: ts) = ticks d3 (timerCallback d3 g t).1 ts := rfl
      cases ts with
      | nil =>
          have htn : tn = t := by simpa using hlast.symm
          subst htn
          simp [ticks, timerCallback, h1, h2]
      | cons t' ts' =>
          have hlast' : (t' :: ts').getLast? = some tn := by
            simpa [List.getLast?_cons_cons] using hlast
          rw [hstep]
          have h1' : (timerCallback d3 g t).1.tprev = some t := rfl
          have h2' : (timerCallback d3 g t).1.rotationSpeed = some sp := h2
          rw [ih _ t sp tn h1' h2' hlast']
          have hr : (timerCallback d3 g t).1.projection.rotate.r0
              = g.projection.rotate.r0 + sp * (t - tp) := by
            simp [timerCallback, h1, h2]
          rw [hr]; ring

lemma drags_r2 (d3 : D3) (es : List Coord) :
    ∀ g : Globe, (drags d3 g es).projection.rotate.r2 = g.projection.rotate.r2 := by
  induction es with
  | nil => intro g; rfl
  | cons e es ih =>
      intro g
      have hstep : drags d3 g (e :: es) = drags d3 (dragHandler d3 g e.1 e.2).1 es := rfl
      rw [hstep, ih]
      rfl

lemma if_gt_hidden (a b : ℚ) : ((if a > b then false else true) = true ↔ a ≤ b) := by
  by_cases h : a > b
  · simp [h, not_le.mpr h]
  · simp [h, not_lt.mp h]

/-- A concrete instantiation of the external d3 record, used to evaluate the
theorems on explicit inputs: projection and inversion are the identity on
coordinates, the great-circle distance is constantly 3/2 and pi is 3 (so
every distance sits exactly on the horizon pi/2). -/
def d3c : D3 :=
  { project := fun _ c => c
    invert := fun _ c => c
    geoDist := fun _ _ => 3 / 2
    pi := 3 }

/-- A concrete globe of size 100 with a rotation registered (delay 5, speed 2). -/
def gReg : Globe := registerRotation (Globe.init 100) (some 5) (some 2)

/-- A concrete location. -/
def locW : Location := { coordinates := (10, 20), tag := "home" }

/-- A concrete globe of size 100 holding the one location `locW`. -/
def gW : Globe := { Globe.init 100 with locations := [locW] }

/-- The marker `_drawMarkers` produces for `locW` on `gW` under `d3c`. -/
def mW : MarkerDom := { cx := 10, cy := 20, visible := true }

/-- C1: each interaction handler (drag delta, zoom factor, timer tick) first
mutates the projection state and then performs a full `_recalculate`: the DOM
it produces equals a fresh render of the returned state, so every path and
every marker is rendered against the updated projection and none is left
rendered against the old one. -/
theorem interaction_rerenders_all (d3 : D3) (g : Globe) (x y k t : ℚ) :
    (dragHandler d3 g x y).2 = recalculate d3 (dragHandler d3 g x y).1 ∧
    (dragHandler d3 g x y).2.pathsProj = (dragHandler d3 g x y).1.projection ∧
    (dragHandler d3 g x y).2.markers = drawMarkers d3 (dragHandler d3 g x y).1 ∧
    (zoomHandler d3 g k).2 = recalculate d3 (zoomHandler d3 g k).1 ∧
    (zoomHandler d3 g k).2.pathsProj = (zoomHandler d3 g k).1.projection ∧
    (zoomHandler d3 g k).2.markers = drawMarkers d3 (zoomHandler d3 g k).1 ∧
    (timerCallback d3 g t).2 = recalculate d3 (timerCallback d3 g t).1 ∧
    (timerCallback d3 g t).2.pathsProj = (timerCallback d3 g t).1.projection ∧
    (timerCallback d3 g t).2.markers = drawMarkers d3 (timerCallback d3 g t).1 :=
  ⟨rfl, rfl, rfl, rfl, rfl, rfl, rfl, rfl, rfl⟩

/-- C2 (as stated, refuted): over arbitrary event sequences the at-most-one-
live-timer property fails: two consecutive `registerRotation` calls leave two
live interval timers, because `registerRotation` overwrites the stored handle
without stopping it. -/
theorem double_register_leaves_two_timers :
    countLive (runT initT [Ev.register, Ev.register]) = 2 ∧
    ¬ (∀ tr : List Ev, countLive (runT initT tr) ≤ 1) :=
  ⟨by decide, fun h => absurd (h [Ev.register, Ev.register]) (by decide)⟩

/-- C2 (amended): along every trace in which each external `registerRotation`
call happens while no timer is live or pending and no drag is in progress, at
most one UI timer is live at every reachable state — the interval timer and
the resume timeout are never both live and no call leaves an orphaned timer. -/
theorem at_most_one_timer (tr : List Ev) (h : GoodFrom initT tr) :
    countLive (runT initT tr) ≤ 1 :=
  invT_countLive _ (invT_run initT tr invT_initT h)

/-- C2 witness: a register / drag / resume / tick trace keeps at most one
timer live. -/
theorem at_most_one_timer_witness :
    countLive (runT initT
      [Ev.register, Ev.dragStart, Ev.dragEnd, Ev.resumeFire 1, Ev.tick 2]) ≤ 1 :=
  at_most_one_timer _
    (GoodFrom.consReg _ _ (by decide) (by decide)
      (GoodFrom.consOther _ _ _ (by decide)
        (GoodFrom.consOther _ _ _ (by decide)
          (GoodFrom.consOther _ _ _ (by decide)
            (GoodFrom.consOther _ _ _ (by decide) (GoodFrom.nil _))))))

/-- C3: over DOM-driven traces (drag gestures, ticks, resume firings, after at
most an initial `registerRotation`), the system is a three-state machine:
while dragging no timer is live or pending, a drag start always leaves both
timers stopped and both fields null, and every reachable configuration is one
of dragging / auto-rotating (one live interval held in the field) / idle
(nothing live, or only the pending resume timeout held in the field). -/
theorem three_state_machine (s0 : TimerSys) (tr : List Ev)
    (h0 : s0 = initT ∨ s0 = stepT initT Ev.register)
    (hnr : ∀ e ∈ tr, e ≠ Ev.register) :
    ((runT s0 tr).dragging = true →
        (runT s0 tr).liveIntervals = [] ∧ (runT s0 tr).livePending = []) ∧
    ((stepT (runT s0 tr) Ev.dragStart).liveIntervals = [] ∧
     (stepT (runT s0 tr) Ev.dragStart).livePending = [] ∧
     (stepT (runT s0 tr) Ev.dragStart).timerField = none ∧
     (stepT (runT s0 tr) Ev.dragStart).resumeField = none) ∧
    (((runT s0 tr).dragging = true ∧ (runT s0 tr).liveIntervals = []
        ∧ (runT s0 tr).livePending = [])
     ∨ ((runT s0 tr).dragging = false ∧ (runT s0 tr).livePending = [] ∧
         ∃ i, (runT s0 tr).liveIntervals = [i] ∧ (runT s0 tr).timerField = some i)
     ∨ ((runT s0 tr).dragging = false ∧ (runT s0 tr).liveIntervals = [] ∧
         ((runT s0 tr).livePending = []
          ∨ ∃ j, (runT s0 tr).livePending = [j]
              ∧ (runT s0 tr).resumeField = some j))) := by
  have hinv0 : InvT s0 := by
    rcases h0 with rfl | rfl
    · exact invT_initT
    · exact invT_step initT Ev.register invT_initT (fun _ => ⟨rfl, rfl⟩)
  have hinv : InvT (runT s0 tr) := invT_run s0 tr hinv0 (goodFrom_of_noReg s0 tr hnr)
  exact ⟨invT_dragging_no_timers _ hinv, invT_dragStart_clears _ hinv, invT_classify _ hinv⟩

/-- C3 witness: evaluated on the trace register, dragStart, dragEnd — a drag
start from the resulting state leaves both timer fields cleared. -/
theorem three_state_machine_witness :
    (stepT (runT (stepT initT Ev.register) [Ev.dragStart, Ev.dragEnd])
        Ev.dragStart).timerField = none ∧
    (stepT (runT (stepT initT Ev.register) [Ev.dragStart, Ev.dragEnd])
        Ev.dragStart).resumeField = none :=
  ⟨(three_state_machine (stepT initT Ev.register) [Ev.dragStart, Ev.dragEnd]
      (Or.inr rfl) (by decide)).2.1.2.2.1,
   (three_state_machine (stepT initT Ev.register) [Ev.dragStart, Ev.dragEnd]
      (Or.inr rfl) (by decide)).2.1.2.2.2⟩

/-- C4: a timer tick at elapsed time `t` advances the yaw by exactly
`speed * (t - tprev)`, leaves pitch and roll unchanged and updates `tprev` to
`t`; and after any tick sequence at times `t1 < ... < tn` following a
`registerRotation` (which resets `tprev` to 0), the total yaw advance is
`speed * tn`. -/
theorem timer_tick_yaw_advance (d3 : D3) (g : Globe) (t tp sp : ℚ) (dl : Option ℚ) :
    (g.tprev = some tp → g.rotationSpeed = some sp →
      (timerCallback d3 g t).1.projection.rotate.r0
          = g.projection.rotate.r0 + sp * (t - tp) ∧
      (timerCallback d3 g t).1.projection.rotate.r1 = g.projection.rotate.r1 ∧
      (timerCallback d3 g t).1.projection.rotate.r2 = g.projection.rotate.r2 ∧
      (timerCallback d3 g t).1.tprev = some t) ∧
    (∀ ts : List ℚ, ∀ tn : ℚ, ts.getLast? = some tn → List.Chain' (· < ·) ts →
      (ticks d3 (registerRotation g dl (some sp)) ts).projection.rotate.r0
        = g.projection.rotate.r0 + sp * tn) := by
  constructor
  · intro h1 h2
    refine ⟨?_, rfl, rfl, rfl⟩
    simp [timerCallback, h1, h2]
  · intro ts tn hlast _
    have h := ticks_r0 d3 ts (registerRotation g dl (some sp)) 0 sp tn rfl rfl hlast
    rw [h]
    have hproj : (registerRotation g dl (some sp)).projection = g.projection := rfl
    rw [hproj]; ring

/-- C4 witness: on `gReg` (speed 2, tprev 0), a tick at time 4 sets tprev to
4, and ticks at times 1 < 3 after a fresh registration advance the yaw by
2 * 3. -/
theorem timer_tick_yaw_advance_witness :
    (timerCallback d3c gReg 4).1.tprev = some 4 ∧
    (ticks d3c (registerRotation gReg (some 5) (some 2)) [1, 3]).projection.rotate.r0
      = gReg.projection.rotate.r0 + 2 * 3 :=
  ⟨((timer_tick_yaw_advance d3c gReg 4 0 2 (some 5)).1 rfl rfl).2.2.2,
   (timer_tick_yaw_advance d3c gReg 4 0 2 (some 5)).2 [1, 3] 3 rfl
     (by norm_num [List.chain'_cons, List.chain'_singleton])⟩

/-- C5: a drag event `(x, y)` sets the rotation to `[x*c, -y*c, roll]` where
`c = 0.09 * size / s` (the code's `0.09 / s * size`), the drag subject is
`[r0/c, -r1/c]` from the current rotation, and (for nonzero `c`) dragging at
the subject point reproduces the current rotation, so the rotation tracks the
cursor continuously from its value at drag start. -/
theorem drag_rotation_formula (d3 : D3) (g : Globe) (x y : ℚ) :
    ((dragHandler d3 g x y).1.projection.rotate
        = ⟨x * (ROTATION_SENSITIVITY / g.projection.scale * g.size),
           -y * (ROTATION_SENSITIVITY / g.projection.scale * g.size),
           g.projection.rotate.r2⟩) ∧
    (ROTATION_SENSITIVITY / g.projection.scale * g.size
        = ROTATION_SENSITIVITY * g.size / g.projection.scale) ∧
    (dragSubject g
        = (g.projection.rotate.r0 / (ROTATION_SENSITIVITY / g.projection.scale * g.size),
           -g.projection.rotate.r1 / (ROTATION_SENSITIVITY / g.projection.scale * g.size))) ∧
    (ROTATION_SENSITIVITY / g.projection.scale * g.size ≠ 0 →
      (dragHandler d3 g (dragSubject g).1 (dragSubject g).2).1.projection.rotate
        = g.projection.rotate) := by
  refine ⟨rfl, by ring, rfl, ?_⟩
  intro hc
  have h4 : (dragHandler d3 g (dragSubject g).1 (dragSubject g).2).1.projection.rotate
      = ⟨g.projection.rotate.r0 / (ROTATION_SENSITIVITY / g.projection.scale * g.size)
           * (ROTATION_SENSITIVITY / g.projection.scale * g.size),
         -(-g.projection.rotate.r1 / (ROTATION_SENSITIVITY / g.projection.scale * g.size))
           * (ROTATION_SENSITIVITY / g.projection.scale * g.size),
         g.projection.rotate.r2⟩ := rfl
  rw [h4]
  have e0 : g.projection.rotate.r0 / (ROTATION_SENSITIVITY / g.projection.scale * g.size)
      * (ROTATION_SENSITIVITY / g.projection.scale * g.size) = g.projection.rotate.r0 :=
    div_mul_cancel₀ _ hc
  have e1 : -(-g.projection.rotate.r1 / (ROTATION_SENSITIVITY / g.projection.scale * g.size))
      * (ROTATION_SENSITIVITY / g.projection.scale * g.size)
      = g.projection.rotate.r1 / (ROTATION_SENSITIVITY / g.projection.scale * g.size)
          * (ROTATION_SENSITIVITY / g.projection.scale * g.size) := by
    ring
  rw [e0, e1, div_mul_cancel₀ _ hc]

/-- C5 witness: on a fresh globe of size 100 (scale 50, so c = 9/50 ≠ 0),
dragging at the subject point leaves the rotation unchanged. -/
theorem drag_rotation_formula_witness :
    (dragHandler d3c (Globe.init 100) (dragSubject (Globe.init 100)).1
        (dragSubject (Globe.init 100)).2).1.projection.rotate
      = (Globe.init 100).projection.rotate :=
  (drag_rotation_formula d3c (Globe.init 100) 0 0).2.2.2
    (by norm_num [Globe.init, ROTATION_SENSITIVITY])

/-- C6: a zoom event with factor `k` sets the projection scale to
`(size/2) * k` — an absolute function of `k` and the construction-time size,
independent of the previous scale — and changes neither the rotation state
nor the stored location list. -/
theorem zoom_scale_absolute (d3 : D3) (g : Globe) (k s' : ℚ) :
    (zoomHandler d3 g k).1.projection.scale = g.size / 2 * k ∧
    (zoomHandler d3 g k).1.projection.rotate = g.projection.rotate ∧
    (zoomHandler d3 g k).1.locations = g.locations ∧
    (zoomHandler d3 { g with projection :=
        { g.projection with scale := s' } } k).1.projection.scale
      = (zoomHandler d3 g k).1.projection.scale :=
  ⟨rfl, rfl, rfl, rfl⟩

/-- C7: `addPoint(coord, tag)` appends exactly one entry with those
coordinates and that tag at the end of the location list, leaves every
previously added location unchanged, and redraws the markers from the
projection, the new one at the projected screen position of its coordinates. -/
theorem addPoint_appends_and_renders (d3 : D3) (g : Globe) (coord : Coord) (tag : String) :
    (addPoint d3 g coord tag).1.locations
        = g.locations ++ [{ coordinates := coord, tag := tag }] ∧
    (addPoint d3 g coord tag).1.locations.take g.locations.length = g.locations ∧
    (addPoint d3 g coord tag).2 = drawMarkers d3 (addPoint d3 g coord tag).1 ∧
    (addPoint d3 g coord tag).2.getLast?
        = some { cx := (d3.project g.projection coord).1
                 cy := (d3.project g.projection coord).2
                 visible := if d3.geoDist coord
                     (d3.invert g.projection (g.size / 2, g.size / 2)) > d3.pi / 2
                   then false else true } := by
  refine ⟨rfl, ?_, rfl, ?_⟩
  · show (g.locations ++ [_]).take g.locations.length = g.locations
    exact List.take_left g.locations _
  · show (drawMarkers d3 { g with
        locations := g.locations ++ [{ coordinates := coord, tag := tag }] }).getLast? = _
    simp [drawMarkers, List.getLast?_map, List.getLast?_concat]

/-- C8: every single drag event and every sequence of drag events preserves
the roll component `r[2]` of the rotation: the globe can never become rolled
sideways by dragging. -/
theorem drag_preserves_roll (d3 : D3) (g : Globe) (x y : ℚ) (es : List Coord) :
    (dragHandler d3 g x y).1.projection.rotate.r2 = g.projection.rotate.r2 ∧
    (drags d3 g es).projection.rotate.r2 = g.projection.rotate.r2 :=
  ⟨rfl, drags_r2 d3 es g⟩

/-- C9: after a redraw, the i-th marker is shown (fill not `none`) if and only
if the great-circle distance between its coordinates and the point of the
sphere at the viewport centre (`projection.invert([size/2, size/2])`) is at
most pi/2; markers exactly on the horizon are shown, markers strictly beyond
are hidden. -/
theorem marker_visible_iff_within_horizon (d3 : D3) (g : Globe) (i : Nat)
    (loc : Location) (m : MarkerDom)
    (hl : g.locations.get? i = some loc)
    (hm : (drawMarkers d3 g).get? i = some m) :
    (m.visible = true ↔
      d3.geoDist loc.coordinates (d3.invert g.projection (g.size / 2, g.size / 2))
        ≤ d3.pi / 2) := by
  have hmap : (drawMarkers d3 g).get? i
      = (g.locations.get? i).map (fun d =>
          ({ cx := (d3.project g.projection d.coordinates).1
             cy := (d3.project g.projection d.coordinates).2
             visible := if d3.geoDist d.coordinates
                 (d3.invert g.projection (g.size / 2, g.size / 2)) > d3.pi / 2
               then false else true } : MarkerDom)) := by
    simp [drawMarkers, List.get?_map]
  rw [hl] at hmap
  rw [hmap] at hm
  have hme : ({ cx := (d3.project g.projection loc.coordinates).1
                cy := (d3.project g.projection loc.coordinates).2
                visible := if d3.geoDist loc.coordinates
                    (d3.invert g.projection (g.size / 2, g.size / 2)) > d3.pi / 2
                  then false else true } : MarkerDom) = m := by
    simpa using hm
  rw [← hme]
  exact if_gt_hidden _ _

/-- C9 witness: under `d3c` (distance constantly 3/2 and pi = 3, the exact
horizon) the marker for `locW` on `gW` is shown. -/
theorem marker_visible_iff_within_horizon_witness :
    (mW.visible = true ↔
      d3c.geoDist locW.coordinates
          (d3c.invert gW.projection (gW.size / 2, gW.size / 2)) ≤ d3c.pi / 2) :=
  marker_visible_iff_within_horizon d3c gW 0 locW mW rfl
    (by norm_num [drawMarkers, d3c, gW, locW, mW, Globe.init])

/-- C10: a drag end always installs a resume timeout of exactly 10000 ms
(`_ROTATION_RESUME_TIMEOUT`); the timeout's callback registers rotation with
exactly the stored delay and speed (the values saved by the most recent
`registerRotation`, which stores its arguments) and clears the resume field;
after a drag on a fresh globe where `registerRotation` was never called, it
registers rotation with null delay and null speed. -/
theorem resume_timeout_behaviour (g : Globe) (size : ℚ) (dl sp : Option ℚ) :
    ((dragEndHandler g).rotationResumeTimer = some ⟨ROTATION_RESUME_TIMEOUT⟩ ∧
      ROTATION_RESUME_TIMEOUT = 10000) ∧
    ((registerRotation g dl sp).rotationDelay = dl ∧
      (registerRotation g dl sp).rotationSpeed = sp) ∧
    ((resumeFire g).rotationDelay = g.rotationDelay ∧
      (resumeFire g).rotationSpeed = g.rotationSpeed ∧
      (resumeFire g).rotationTimer = some ⟨g.rotationDelay⟩ ∧
      (resumeFire g).tprev = some 0 ∧
      (resumeFire g).rotationResumeTimer = none) ∧
    ((resumeFire (dragEndHandler (dragStartHandler (Globe.init size)))).rotationDelay
        = none ∧
      (resumeFire (dragEndHandler (dragStartHandler (Globe.init size)))).rotationSpeed
        = none ∧
      (resumeFire (dragEndHandler (dragStartHandler (Globe.init size)))).rotationTimer
        = some ⟨none⟩) :=
  ⟨⟨rfl, rfl⟩, ⟨rfl, rfl⟩, ⟨rfl, rfl, rfl, rfl, rfl⟩, ⟨rfl, rfl, rfl⟩⟩

end GlobeJs
